import Mathlib

/-!
Shallow embedding of the medtrackerapp repository (a Django/DRF
medication-adherence tracker) and proofs about its specified behaviour.

The repository ships `views.py` and its test suite; the model layer
(`models.py`) is referenced but not present, so the model-level
computations (`expected_doses`, `adherence_rate`,
`adherence_rate_over_period`, cascade deletion) are modelled from the
specification text, cross-checked against the unit tests in
`tests/test_models.py`.

Conventions of the embedding:
* Dates handed to the adherence computations are integers counting days
  (a Rata-Die style ordinal), so the inclusive day span of a period
  `[start, end]` is `end - start + 1`, matching the number of calendar
  days with both endpoints counted.
* Timestamps on dose logs are split into a date part (the integer above)
  and a time-of-day part; only the date part is ever compared.
* Python `ValueError` and exceptions become `Except String` with the
  error message; percentages become exact rationals.
-/

/-- A row of the Medication table: name, dosage in milligrams and the
prescribed number of doses per day, plus the primary key. -/
structure Medication where
  id : Nat
  name : String
  dosage_mg : Int
  prescribed_per_day : Int
deriving DecidableEq

/-- A row of the DoseLog table: the referenced medication's primary key,
the timestamp split into its date part (integer day ordinal) and
time-of-day part, and the `was_taken` flag (which defaults to `true`). -/
structure DoseLog where
  medication : Nat
  takenAtDate : Int
  takenAtTime : Nat := 0
  was_taken : Bool := true
deriving DecidableEq

namespace Medication

/-- Modelled from the spec: `Medication.expected_doses` in the missing
`models.py`.  "expected_doses(days): returns prescribed_per_day × days;
fails when days < 0 or prescribed_per_day ≤ 0."  A failure is a Python
`ValueError`, embedded as `Except.error` with the message. -/
def expected_doses (med : Medication) (days : Int) : Except String Int :=
  if days < 0 then
    .error "days must be non-negative"
  else if med.prescribed_per_day ≤ 0 then
    .error "prescribed_per_day must be positive"
  else
    .ok (med.prescribed_per_day * days)

/-- The dose logs recorded for a given medication, out of the global
store of logs (the reverse side of the DoseLog → Medication foreign
key). -/
def logsFor (med : Medication) (logs : List DoseLog) : List DoseLog :=
  logs.filter (fun l => l.medication = med.id)

/-- Modelled from the spec: `Medication.adherence_rate` in the missing
`models.py`.  "adherence_rate(): over all logs ever recorded, percentage
of logs where was_taken is true; 0 when no logs exist." -/
def adherence_rate (med : Medication) (logs : List DoseLog) : ℚ :=
  let rel := med.logsFor logs
  if rel.length = 0 then 0
  else 100 * ((rel.filter (fun l => l.was_taken)).length : ℚ) / (rel.length : ℚ)

end Medication

/-- Round a rational to the nearest integer, ties to even.  This is the
rounding mode of Python's builtin `round` (the repository's unit test
`test_adherence_rate_period_some_dose_taken` pins the adherence rate to
`round(100 * 5 / 6, 2)`); the binary-float artifacts of CPython's
implementation are not modelled, only the exact half-even rule. -/
def roundHalfEven (x : ℚ) : ℤ :=
  let f := ⌊x⌋
  if x - f < 1/2 then f
  else if 1/2 < x - f then f + 1
  else if f % 2 = 0 then f else f + 1

/-- Python `round(x, 2)`: round to two decimal places, ties to even. -/
def round2 (q : ℚ) : ℚ := (roundHalfEven (q * 100) : ℚ) / 100

/-- The percentage computation at the heart of
`adherence_rate_over_period`, given the taken count and the expected
count: 0 when the expected count is 0 (the guard against division by
zero), otherwise the rounded percentage. -/
def rateFromCounts (taken : Nat) (expected : Int) : ℚ :=
  if expected = 0 then 0
  else round2 (100 * (taken : ℚ) / (expected : ℚ))

namespace Medication

/-- The number of `was_taken = true` dose logs of a medication whose date
lies in the inclusive interval `[start, stop]`. -/
def takenCountInPeriod (med : Medication) (logs : List DoseLog)
    (start stop : Int) : Nat :=
  (logs.filter (fun l =>
    l.medication = med.id ∧ l.was_taken ∧
    start ≤ l.takenAtDate ∧ l.takenAtDate ≤ stop)).length

/-- Modelled from the spec: `Medication.adherence_rate_over_period` in
the missing `models.py`.  "adherence_rate_over_period(start, end):
percentage = 100 × (count of was_taken=true logs with date in
[start,end]) / expected_doses(day span); fails when start > end; returns
0 when expected is 0."  The day span counts both endpoints, the
percentage is rounded to two decimal places as the unit test pins it,
and a failure inside `expected_doses` propagates, as a Python call
would. -/
def adherence_rate_over_period (med : Medication) (logs : List DoseLog)
    (start stop : Int) : Except String ℚ :=
  if start > stop then
    .error "start date must not be after end date"
  else
    match med.expected_doses (stop - start + 1) with
    | .error e => .error e
    | .ok expected =>
      .ok (rateFromCounts (med.takenCountInPeriod logs start stop) expected)

end Medication

/-- A medication together with a small scenario used as concrete input:
Aspirin 100mg, 2 doses prescribed per day (the fixture of
`MedicationModelTests.setUp`). -/
def aspirin : Medication := { id := 1, name := "Aspirin", dosage_mg := 100, prescribed_per_day := 2 }

/-- C1: For every medication and every integer days, expected_doses(days)
returns prescribed_per_day × days when days ≥ 0 and prescribed_per_day > 0
(in particular it returns 0 when days = 0), and raises a ValueError when
days < 0 or prescribed_per_day ≤ 0. -/
theorem expected_doses_spec (med : Medication) (days : Int) :
    (0 ≤ days → 0 < med.prescribed_per_day →
      med.expected_doses days = .ok (med.prescribed_per_day * days)) ∧
    (med.expected_doses 0 = .ok 0 ∨ med.prescribed_per_day ≤ 0) ∧
    (days < 0 ∨ med.prescribed_per_day ≤ 0 →
      ∃ msg, med.expected_doses days = .error msg) := by
  unfold Medication.expected_doses
  refine ⟨?_, ?_, ?_⟩
  · intro hd hp
    rw [if_neg (by omega), if_neg (by omega)]
  · by_cases hp : med.prescribed_per_day ≤ 0
    · exact Or.inr hp
    · left
      rw [if_neg (by omega), if_neg hp, mul_zero]
  · intro h
    by_cases hd : days < 0
    · exact ⟨"days must be non-negative", by rw [if_pos hd]⟩
    · have hp : med.prescribed_per_day ≤ 0 := by omega
      exact ⟨"prescribed_per_day must be positive", by rw [if_neg hd, if_pos hp]⟩

/-- Witness for C1 at concrete inputs: Aspirin (2/day) over 5 days gives
10 expected doses. -/
theorem expected_doses_spec_witness :
    aspirin.expected_doses 5 = .ok 10 :=
  (expected_doses_spec aspirin 5).1 (by decide) (by decide)

/-- The five taken logs of `test_adherence_rate_period_some_dose_taken`:
two on day 1, two on day 2, one on day 3, all for medication 1, all with
the default `was_taken = true`. -/
def periodLogs : List DoseLog :=
  [ { medication := 1, takenAtDate := 1 },
    { medication := 1, takenAtDate := 1, takenAtTime := 1210 },
    { medication := 1, takenAtDate := 2, takenAtTime := 610 },
    { medication := 1, takenAtDate := 2, takenAtTime := 1210 },
    { medication := 1, takenAtDate := 3, takenAtTime := 1439 } ]

/-- Unfolding lemma: when the range check passes and the inner
expected_doses call succeeds, adherence_rate_over_period applies
`rateFromCounts` to the period's taken count and the expected count. -/
theorem adherence_period_eq_ok (med : Medication) (logs : List DoseLog)
    (start stop : Int) (h : ¬start > stop) (expected : Int)
    (hexp : med.expected_doses (stop - start + 1) = .ok expected) :
    med.adherence_rate_over_period logs start stop =
      .ok (rateFromCounts (med.takenCountInPeriod logs start stop) expected) := by
  unfold Medication.adherence_rate_over_period
  rw [if_neg h, hexp]

/-- Unfolding lemma: when the range check passes but the inner
expected_doses call fails, adherence_rate_over_period propagates the
failure. -/
theorem adherence_period_eq_err (med : Medication) (logs : List DoseLog)
    (start stop : Int) (h : ¬start > stop) (e : String)
    (hexp : med.expected_doses (stop - start + 1) = .error e) :
    med.adherence_rate_over_period logs start stop = .error e := by
  unfold Medication.adherence_rate_over_period
  rw [if_neg h, hexp]

/-- Counterexample to C2 as stated: on the scenario of the repository's
own unit test (5 taken logs in a 3-day period, 2 doses prescribed per
day, hence 6 expected doses), the function returns 83.33 — the
percentage rounded to two decimal places — not the exact ratio
100 × 5 / 6 = 83.333…. -/
theorem adherence_period_not_exact_ratio :
    aspirin.takenCountInPeriod periodLogs 1 3 = 5 ∧
    (aspirin.expected_doses (3 - 1 + 1)).toOption = some 6 ∧
    (aspirin.adherence_rate_over_period periodLogs 1 3).toOption = some (8333 / 100) ∧
    (8333 / 100 : ℚ) ≠ 100 * 5 / 6 := by
  have hexp : aspirin.expected_doses (3 - 1 + 1) = .ok 6 := by
    unfold Medication.expected_doses aspirin
    norm_num
  have hcount : aspirin.takenCountInPeriod periodLogs 1 3 = 5 := by decide
  refine ⟨hcount, by rw [hexp]; rfl, ?_, by norm_num⟩
  rw [adherence_period_eq_ok aspirin periodLogs 1 3 (by decide) 6 hexp, hcount]
  have hrate : rateFromCounts 5 6 = 8333 / 100 := by
    unfold rateFromCounts round2 roundHalfEven
    norm_num
  rw [hrate]
  rfl

/-- C2 amended: for every medication with prescribed_per_day > 0 and
every period start ≤ end, adherence_rate_over_period returns
100 × (taken count in the inclusive period) / (prescribed_per_day ×
(end − start + 1)), rounded to two decimal places (ties to even). -/
theorem adherence_period_rounded_spec (med : Medication) (logs : List DoseLog)
    (start stop : Int) (hp : 0 < med.prescribed_per_day) (h : start ≤ stop) :
    med.adherence_rate_over_period logs start stop =
      .ok (round2 (100 * (med.takenCountInPeriod logs start stop : ℚ) /
        ((med.prescribed_per_day * (stop - start + 1) : ℤ) : ℚ))) := by
  have hexp : med.expected_doses (stop - start + 1) =
      .ok (med.prescribed_per_day * (stop - start + 1)) := by
    unfold Medication.expected_doses
    rw [if_neg (by omega), if_neg (by omega)]
  rw [adherence_period_eq_ok med logs start stop (by omega) _ hexp]
  unfold rateFromCounts
  rw [if_neg (mul_pos hp (show (0:ℤ) < stop - start + 1 by omega)).ne']

/-- Witness for C2's amended theorem on the unit-test scenario. -/
theorem adherence_period_rounded_spec_witness :
    aspirin.adherence_rate_over_period periodLogs 1 3 =
      .ok (round2 (100 * (aspirin.takenCountInPeriod periodLogs 1 3 : ℚ) /
        ((aspirin.prescribed_per_day * (3 - 1 + 1) : ℤ) : ℚ))) :=
  adherence_period_rounded_spec aspirin periodLogs 1 3 (by decide) (by decide)

/-- A medication whose prescribed_per_day is 0, as created by
`test_invalid_date_medication`. -/
def zeroPerDayMed : Medication :=
  { id := 2, name := "Aspirin", dosage_mg := 100, prescribed_per_day := 0 }

/-- Counterexample to C3 as stated ("raises exactly when start > end"):
for a medication with prescribed_per_day = 0 and the one-day period
[1, 1] (so start ≤ end), the call still fails, because the inner
expected_doses call fails and its ValueError propagates. -/
theorem adherence_period_error_without_bad_range :
    ((1 : Int) ≤ 1) ∧
    (zeroPerDayMed.adherence_rate_over_period [] 1 1).toOption = none := by
  exact ⟨by decide, by decide⟩

/-- C3 amended: adherence_rate_over_period fails when start > end, and
also when prescribed_per_day ≤ 0 (the ValueError of the inner
expected_doses call propagates); when start ≤ end and
prescribed_per_day > 0 it returns normally.  The division-by-zero guard
is real: the percentage computation returns 0 whenever the expected
count is 0, instead of dividing. -/
theorem adherence_period_error_conditions (med : Medication)
    (logs : List DoseLog) (start stop : Int) :
    (start > stop → (med.adherence_rate_over_period logs start stop).toOption = none) ∧
    (start ≤ stop → med.prescribed_per_day ≤ 0 →
      (med.adherence_rate_over_period logs start stop).toOption = none) ∧
    (start ≤ stop → 0 < med.prescribed_per_day →
      ∃ q, med.adherence_rate_over_period logs start stop = .ok q) ∧
    (∀ taken : Nat, rateFromCounts taken 0 = 0) := by
  refine ⟨?_, ?_, ?_, ?_⟩
  · intro hgt
    unfold Medication.adherence_rate_over_period
    rw [if_pos hgt]
    rfl
  · intro hle hp
    have hexp : med.expected_doses (stop - start + 1) =
        .error "prescribed_per_day must be positive" := by
      unfold Medication.expected_doses
      rw [if_neg (by omega), if_pos hp]
    rw [adherence_period_eq_err med logs start stop (by omega) _ hexp]
    rfl
  · intro hle hp
    have hexp : med.expected_doses (stop - start + 1) =
        .ok (med.prescribed_per_day * (stop - start + 1)) := by
      unfold Medication.expected_doses
      rw [if_neg (by omega), if_neg (by omega)]
    rw [adherence_period_eq_ok med logs start stop (by omega) _ hexp]
    exact ⟨_, rfl⟩
  · intro taken
    unfold rateFromCounts
    rw [if_pos rfl]

/-- Witness for C3's amended theorem: on [1, 1] with zero
prescribed_per_day the call fails. -/
theorem adherence_period_error_conditions_witness :
    (zeroPerDayMed.adherence_rate_over_period [] 1 1).toOption = none :=
  (adherence_period_error_conditions zeroPerDayMed [] 1 1).2.1 (by decide) (by decide)

/-- C4: adherence_rate() is the percentage of the medication's recorded
logs whose was_taken flag is true: 0 when there are no logs, the ratio
100 × taken / total otherwise, hence 100 when every log is taken and 0
when none is. -/
theorem adherence_rate_spec (med : Medication) (logs : List DoseLog) :
    (med.logsFor logs = [] → med.adherence_rate logs = 0) ∧
    (med.logsFor logs ≠ [] →
      med.adherence_rate logs =
        100 * (((med.logsFor logs).filter (fun l => l.was_taken)).length : ℚ) /
          ((med.logsFor logs).length : ℚ)) ∧
    ((∀ l ∈ med.logsFor logs, l.was_taken) → med.logsFor logs ≠ [] →
      med.adherence_rate logs = 100) ∧
    ((∀ l ∈ med.logsFor logs, l.was_taken = false) → med.adherence_rate logs = 0) := by
  unfold Medication.adherence_rate
  refine ⟨?_, ?_, ?_, ?_⟩
  · intro hnil
    rw [if_pos (by rw [hnil]; rfl)]
  · intro hne
    rw [if_neg (by simpa [List.length_eq_zero] using hne)]
  · intro hall hne
    have hfil : (med.logsFor logs).filter (fun l => l.was_taken) = med.logsFor logs :=
      List.filter_eq_self.mpr (fun l hl => by simpa using hall l hl)
    have hlen : ((med.logsFor logs).length : ℚ) ≠ 0 := by
      exact_mod_cast fun h => hne (List.length_eq_zero.mp (by exact_mod_cast h))
    rw [if_neg (by simpa [List.length_eq_zero] using hne), hfil,
      mul_div_assoc, div_self hlen, mul_one]
  · intro hnone
    by_cases hnil : med.logsFor logs = []
    · rw [if_pos (by rw [hnil]; rfl)]
    · have hfil : (med.logsFor logs).filter (fun l => l.was_taken) = [] :=
        List.filter_eq_nil_iff.mpr (fun l hl => by simp [hnone l hl])
      rw [if_neg (by simpa [List.length_eq_zero] using hnil), hfil]
      simp

/-- Witness for C4 on the unit-test scenario: every recorded log of the
medication was taken, so the adherence rate is 100. -/
theorem adherence_rate_spec_witness :
    aspirin.adherence_rate periodLogs = 100 :=
  (adherence_rate_spec aspirin periodLogs).2.2.1 (by decide) (by decide)

/-- The five standard REST actions a DRF viewset can provide. -/
inductive RestAction where
  | list
  | retrieve
  | create
  | update
  | destroy
deriving DecidableEq

/-- From `views.py`: `MedicationViewSet` extends `ModelViewSet`, so it
provides all five CRUD actions. -/
def medicationViewSetActions : List RestAction :=
  [.list, .retrieve, .create, .update, .destroy]

/-- From `views.py`: `DoseLogViewSet` extends `ModelViewSet`, so it
provides all five CRUD actions. -/
def doseLogViewSetActions : List RestAction :=
  [.list, .retrieve, .create, .update, .destroy]

/-- From `views.py`: `NoteViewSet` extends `GenericViewSet` with only the
List, Retrieve, Create and Destroy mixins; its docstring states that
updating existing notes is intentionally not supported. -/
def noteViewSetActions : List RestAction :=
  [.list, .retrieve, .create, .destroy]

/-- DRF routing: a request for an action the viewset provides is
dispatched (status 200 on success); a request mapped to a missing
handler is answered with 405 Method Not Allowed. -/
def dispatchStatusCode (supported : List RestAction) (a : RestAction) : Nat :=
  if a ∈ supported then 200 else 405

/-- Counterexample to C5 as stated: `NoteViewSet` does not provide the
update action, so an update request on an existing Note is answered with
405, not success. -/
theorem note_update_unsupported :
    RestAction.update ∉ noteViewSetActions ∧
    dispatchStatusCode noteViewSetActions RestAction.update = 405 := by
  decide

/-- C5 amended: Medication and DoseLog get the full standard REST CRUD
(including update); Note supports list, retrieve, create and delete, but
deliberately not update. -/
theorem viewset_crud_support :
    (∀ a : RestAction, a ∈ medicationViewSetActions) ∧
    (∀ a : RestAction, a ∈ doseLogViewSetActions) ∧
    (∀ a : RestAction, a ∈ noteViewSetActions ↔ a ≠ RestAction.update) := by
  refine ⟨fun a => ?_, fun a => ?_, fun a => ?_⟩ <;> cases a <;> decide

/-- The persistent store the API operates on: the Medication rows and
the DoseLog rows. -/
structure Store where
  meds : List Medication
  logs : List DoseLog

/-- Modelled from the spec: the DoseLog → Medication foreign key of the
missing `models.py` is declared with cascade deletion ("many logs per
medication, deleted when medication is deleted", pinned by
`test_doselog_cascade_delete`).  Deleting a medication removes its row
and every dose log that references it. -/
def deleteMedication (s : Store) (medId : Nat) : Store :=
  { meds := s.meds.filter (fun m => m.id ≠ medId),
    logs := s.logs.filter (fun l => l.medication ≠ medId) }

/-- C9: after deleting a medication, no dose log referencing the deleted
medication's id remains in the store. -/
theorem cascade_delete_no_dangling (s : Store) (medId : Nat) (l : DoseLog)
    (hl : l ∈ (deleteMedication s medId).logs) : l.medication ≠ medId := by
  have h := List.of_mem_filter hl
  simpa using h

/-- Witness for C9: in a store with one surviving log for medication 2,
deleting medication 1 leaves only logs not referencing it. -/
theorem cascade_delete_no_dangling_witness :
    ({ medication := 2, takenAtDate := 0 } : DoseLog).medication ≠ 1 :=
  cascade_delete_no_dangling
    ⟨[aspirin], [{ medication := 2, takenAtDate := 0 }]⟩ 1 _ (by decide)

deriving instance DecidableEq for Except

/-- A JSON-object payload, as an association list of string keys and
string values (the fragment the views inspect). -/
def Dict := List (String × String)
deriving DecidableEq

/-- Python `d.get(k)`: the value at the first occurrence of the key, or
`None`. -/
def dictGet (d : Dict) (k : String) : Option String :=
  (List.find? (fun p => p.1 = k) d).map (fun p => p.2)

/-- Python truthiness of `data.get(k)` for string-valued dicts: the key
is present and its value is a nonempty string. -/
def truthyGet (d : Dict) (k : String) : Bool :=
  match dictGet d k with
  | none => false
  | some v => v ≠ ""

/-- Modelled from the spec: `Medication.fetch_external_info` in the
missing `models.py`.  Per `test_fetch_external_info_success` and
`test_fetch_external_info_error`, it returns the `DrugInfoService`
result on success and the dict `{"error": str(exc)}` when the service
raises. -/
def fetch_external_info (serviceResult : Except String Dict) : Dict :=
  match serviceResult with
  | .error msg => [("error", msg)]
  | .ok d => d

/-- From `views.py` `MedicationViewSet.get_external_info`: fetch the
external info; if the returned dict has a truthy "error" entry, answer
502 Bad Gateway with it, otherwise answer 200 with the data. -/
def get_external_info (serviceResult : Except String Dict) : Nat × Dict :=
  let data := fetch_external_info serviceResult
  if truthyGet data "error" then (502, data) else (200, data)

/-- Counterexample to C7 as stated: the view decides 502 by looking for
an "error" key in the returned payload, not by whether the lookup
failed; a successful lookup whose payload happens to contain a nonempty
"error" entry is answered with 502, not 200. -/
theorem external_info_success_can_give_502 :
    get_external_info (.ok [("error", "oops")]) = (502, [("error", "oops")]) ∧
    (502 : Nat) ≠ 200 := by
  exact ⟨by decide, by decide⟩

/-- C7 amended: a failing lookup with a nonempty failure message is
answered 502 with the payload {"error": message}; a successful lookup
whose payload has no "error" key is answered 200 with the data
unchanged; in every case the body is exactly the fetched dict, and 502
is chosen exactly when that dict carries a nonempty "error" entry. -/
theorem external_info_spec (r : Except String Dict) :
    (∀ msg, r = .error msg → msg ≠ "" →
      get_external_info r = (502, [("error", msg)])) ∧
    (∀ d, r = .ok d → dictGet d "error" = none →
      get_external_info r = (200, d)) ∧
    ((get_external_info r).2 = fetch_external_info r) ∧
    ((get_external_info r).1 = 502 ↔ truthyGet (fetch_external_info r) "error" = true) := by
  refine ⟨?_, ?_, ?_, ?_⟩
  · intro msg hr hmsg
    subst hr
    unfold get_external_info fetch_external_info truthyGet dictGet
    simp [List.find?, hmsg]
  · intro d hr hnone
    subst hr
    simp [get_external_info, truthyGet, fetch_external_info, hnone]
  · unfold get_external_info
    dsimp only
    split <;> rfl
  · unfold get_external_info
    dsimp only
    split <;> simp_all

/-- Witness for C7's amended theorem at the scenario of
`test_external_info_failure`: the service raises "API failure" and the
view answers 502 with the error payload. -/
theorem external_info_spec_witness :
    get_external_info (.error "API failure") = (502, [("error", "API failure")]) :=
  (external_info_spec (.error "API failure")).1 "API failure" rfl (by decide)

/-- The numeric value of a list of decimal digit characters. -/
def natOfDigits (cs : List Char) : Nat :=
  cs.foldl (fun n c => 10 * n + (c.toNat - 48)) 0

/-- Python `int(s)` on the fragment the views can meet: an optional sign
followed by decimal digits (whitespace trimming and underscore grouping
of CPython's full grammar are not modelled); anything else raises
ValueError, embedded as `none`. -/
def pyIntParse (s : String) : Option Int :=
  match s.data with
  | [] => none
  | '-' :: rest =>
    if rest.isEmpty then none
    else if rest.all Char.isDigit then some (-(natOfDigits rest : Int)) else none
  | '+' :: rest =>
    if rest.isEmpty then none
    else if rest.all Char.isDigit then some (natOfDigits rest : Int) else none
  | cs =>
    if cs.all Char.isDigit then some (natOfDigits cs : Int) else none

/-- From `views.py` `_get_required_positive_int_query_param`: the raw
query parameter (or `None` when absent) is required, must parse as an
integer, and must be strictly positive; otherwise a ValueError with the
message shown. -/
def getRequiredPositiveIntQueryParam (raw : Option String) (name : String) :
    Except String Int :=
  match raw with
  | none => .error ("Query parameter " ++ name ++ " is required.")
  | some s =>
    match pyIntParse s with
    | none => .error ("Query parameter " ++ name ++ " must be a positive integer.")
    | some v =>
      if v ≤ 0 then
        .error ("Query parameter " ++ name ++ " must be a positive integer.")
      else .ok v

/-- The body of a response of the expected-doses endpoint: either an
error payload `{"error": msg}` or the success payload
`{medication_id, days, expected_doses}`. -/
inductive ExpectedDosesBody where
  | err (msg : String)
  | payload (medicationId : Nat) (days : Int) (expectedDoses : Int)
deriving DecidableEq

/-- From `views.py` `MedicationViewSet.expected_doses`, after
`get_object` has already resolved the medication (so the 404 path is out
of the picture): parse the required positive `days` query parameter (400
with the error message on failure), call the model computation (400 with
the message on ValueError), else 200 with the payload. -/
def expectedDosesEndpoint (med : Medication) (daysRaw : Option String) :
    Nat × ExpectedDosesBody :=
  match getRequiredPositiveIntQueryParam daysRaw "days" with
  | .error msg => (400, .err msg)
  | .ok days =>
    match med.expected_doses days with
    | .error msg => (400, .err msg)
    | .ok c => (200, .payload med.id days c)

/-- The query-parameter parser only ever succeeds with a strictly
positive value. -/
theorem getRequiredPositiveIntQueryParam_pos {raw : Option String}
    {name : String} {v : Int}
    (h : getRequiredPositiveIntQueryParam raw name = .ok v) : 0 < v := by
  unfold getRequiredPositiveIntQueryParam at h
  split at h
  · simp at h
  · split at h
    · simp at h
    · split at h
      · simp at h
      · simp only [Except.ok.injEq] at h
        omega

/-- Unfolding lemma: when the parameter parser succeeds, the endpoint
reduces to the model computation on the parsed value. -/
theorem expectedDosesEndpoint_eq_of_param_ok (med : Medication)
    (raw : Option String) (d : Int)
    (h : getRequiredPositiveIntQueryParam raw "days" = .ok d) :
    expectedDosesEndpoint med raw =
      match med.expected_doses d with
      | .error msg => (400, .err msg)
      | .ok c => (200, .payload med.id d c) := by
  unfold expectedDosesEndpoint
  rw [h]

/-- Unfolding lemma: when the parameter parser fails, the endpoint
answers 400 with the parser's message. -/
theorem expectedDosesEndpoint_eq_of_param_err (med : Medication)
    (raw : Option String) (msg : String)
    (h : getRequiredPositiveIntQueryParam raw "days" = .error msg) :
    expectedDosesEndpoint med raw = (400, .err msg) := by
  unfold expectedDosesEndpoint
  rw [h]

/-- C6: on an existing medication, if the days parameter parses as a
positive integer and the model computation succeeds (prescribed_per_day
> 0), the endpoint answers 200 with the payload {medication_id, days,
expected_doses}; otherwise — parameter missing or invalid, i.e. the
parser fails, or the model computation raises ValueError — it answers
400 with an error payload. -/
theorem expected_doses_endpoint_spec (med : Medication) (raw : Option String) :
    (∀ s d, raw = some s → pyIntParse s = some d → 0 < d →
      0 < med.prescribed_per_day →
      expectedDosesEndpoint med raw =
        (200, .payload med.id d (med.prescribed_per_day * d))) ∧
    ((getRequiredPositiveIntQueryParam raw "days").toOption = none ∨
        med.prescribed_per_day ≤ 0 →
      (expectedDosesEndpoint med raw).1 = 400 ∧
      ∃ msg, (expectedDosesEndpoint med raw).2 = .err msg) := by
  constructor
  · intro s d hs hd hdpos hp
    subst hs
    have hparam : getRequiredPositiveIntQueryParam (some s) "days" = .ok d := by
      simp only [getRequiredPositiveIntQueryParam, hd]
      rw [if_neg (by omega)]
    have hexp : med.expected_doses d = .ok (med.prescribed_per_day * d) := by
      unfold Medication.expected_doses
      rw [if_neg (by omega), if_neg (by omega)]
    rw [expectedDosesEndpoint_eq_of_param_ok med (some s) d hparam, hexp]
  · intro h
    cases hparam : getRequiredPositiveIntQueryParam raw "days" with
    | error msg =>
      rw [expectedDosesEndpoint_eq_of_param_err med raw msg hparam]
      exact ⟨rfl, msg, rfl⟩
    | ok v =>
      have hv : 0 < v := getRequiredPositiveIntQueryParam_pos hparam
      rcases h with h | hp
      · rw [hparam] at h; simp [Except.toOption] at h
      · have hexp : med.expected_doses v =
            .error "prescribed_per_day must be positive" := by
          unfold Medication.expected_doses
          rw [if_neg (by omega), if_pos hp]
        rw [expectedDosesEndpoint_eq_of_param_ok med raw v hparam, hexp]
        exact ⟨rfl, _, rfl⟩

/-- Witness for C6: days=3 on Aspirin (2/day) answers 200 with 6
expected doses. -/
theorem expected_doses_endpoint_spec_witness :
    expectedDosesEndpoint aspirin (some "3") =
      (200, .payload aspirin.id 3 (aspirin.prescribed_per_day * 3)) :=
  (expected_doses_endpoint_spec aspirin (some "3")).1 "3" 3 rfl (by decide)
    (by decide) (by decide)

/-- C10: the model computation accepts days = 0 (returning 0) whenever
prescribed_per_day > 0, but the endpoint's query parser requires a
strictly positive integer, so days=0 is answered 400, and no 200
response of the endpoint ever carries a non-positive days value. -/
theorem expected_doses_zero_days_unreachable (med : Medication)
    (raw : Option String) :
    (0 < med.prescribed_per_day → med.expected_doses 0 = .ok 0) ∧
    (expectedDosesEndpoint med (some "0")).1 = 400 ∧
    (∀ b, expectedDosesEndpoint med raw = (200, b) →
      ∀ i d c, b = .payload i d c → 0 < d) := by
  refine ⟨?_, ?_, ?_⟩
  · intro hp
    unfold Medication.expected_doses
    rw [if_neg (by omega), if_neg (by omega), mul_zero]
  · have hparam : getRequiredPositiveIntQueryParam (some "0") "days" =
        .error "Query parameter days must be a positive integer." := rfl
    rw [expectedDosesEndpoint_eq_of_param_err med (some "0") _ hparam]
  · intro b hb i d c hbody
    subst hbody
    cases hparam : getRequiredPositiveIntQueryParam raw "days" with
    | error msg =>
      rw [expectedDosesEndpoint_eq_of_param_err med raw msg hparam] at hb
      simp at hb
    | ok v =>
      have hv : 0 < v := getRequiredPositiveIntQueryParam_pos hparam
      rw [expectedDosesEndpoint_eq_of_param_ok med raw v hparam] at hb
      cases hexp : med.expected_doses v with
      | error msg => rw [hexp] at hb; simp at hb
      | ok c2 =>
        rw [hexp] at hb
        simp only [Prod.mk.injEq, ExpectedDosesBody.payload.injEq] at hb
        omega

/-- Witness for C10: with Aspirin (2/day), expected_doses(0) = 0 at the
model level even though the endpoint rejects days=0. -/
theorem expected_doses_zero_days_unreachable_witness :
    aspirin.expected_doses 0 = .ok 0 :=
  (expected_doses_zero_days_unreachable aspirin none).1 (by decide)

/-- Split a character list at every '-', keeping empty pieces (the
shape of matching against Django's `date_re`,
`\d{4}-\d{1,2}-\d{1,2}$`). -/
def splitDashAux : List Char → List Char → List (List Char)
  | [], acc => [acc.reverse]
  | c :: rest, acc =>
    if c = '-' then acc.reverse :: splitDashAux rest []
    else splitDashAux rest (c :: acc)

/-- Django's `date_re` applied to a string: three dash-separated runs of
decimal digits, 4 for the year and 1–2 for month and day, spanning the
whole string; on a match, the three numbers. -/
def matchDateRe (s : String) : Option (Nat × Nat × Nat) :=
  match splitDashAux s.data [] with
  | [ys, ms, ds] =>
    if ys.length = 4 && ys.all Char.isDigit &&
       !ms.isEmpty && ms.length ≤ 2 && ms.all Char.isDigit &&
       !ds.isEmpty && ds.length ≤ 2 && ds.all Char.isDigit then
      some (natOfDigits ys, natOfDigits ms, natOfDigits ds)
    else none
  | _ => none

/-- Gregorian leap year, as `calendar.isleap` / `datetime` use it. -/
def gregLeapYear (y : Nat) : Bool :=
  (y % 4 = 0 && y % 100 ≠ 0) || y % 400 = 0

/-- Days in a month of a given year. -/
def daysInMonth (y m : Nat) : Nat :=
  if m = 2 then (if gregLeapYear y then 29 else 28)
  else if m = 4 || m = 6 || m = 9 || m = 11 then 30
  else 31

/-- Whether `datetime.date(y, m, d)` accepts the components
(`MINYEAR = 1`, `MAXYEAR = 9999`). -/
def validYmd (y m d : Nat) : Bool :=
  1 ≤ y && y ≤ 9999 && 1 ≤ m && m ≤ 12 && 1 ≤ d && d ≤ daysInMonth y m

/-- A date packed into one integer key, ordered like the date itself. -/
def dateCode (y m d : Nat) : Int :=
  (y : Int) * 10000 + (m : Int) * 100 + (d : Int)

/-- The unhandled Python exceptions the filter endpoint can raise. -/
inductive PyExc where
  | typeError
  | valueError
deriving DecidableEq

/-- `django.utils.dateparse.parse_date` as called by the view, on the
raw query parameter: called with `None` (parameter absent) it raises
TypeError; on a string that does not match `date_re` it returns `None`;
on a match it builds `datetime.date(y, m, d)`, which raises ValueError
when the components are not a valid date, and otherwise yields the
date. -/
def parse_date (raw : Option String) : Except PyExc (Option Int) :=
  match raw with
  | none => .error .typeError
  | some s =>
    match matchDateRe s with
    | none => .ok none
    | some (y, m, d) =>
      if validYmd y m d then .ok (some (dateCode y m d))
      else .error .valueError

/-- The body of a response of the filter endpoint: an error payload or
the serialized list of logs. -/
inductive FilterBody where
  | err (msg : String)
  | results (logs : List DoseLog)
deriving DecidableEq

/-- The `order_by("taken_at")` key comparison: by date part, then by
time-of-day part. -/
def takenAtLe (a b : DoseLog) : Bool :=
  a.takenAtDate < b.takenAtDate ||
    (a.takenAtDate = b.takenAtDate && a.takenAtTime ≤ b.takenAtTime)

/-- Stable insertion into a list sorted by `takenAtLe`. -/
def insertByTakenAt (l : DoseLog) : List DoseLog → List DoseLog
  | [] => [l]
  | x :: xs =>
    if takenAtLe l x then l :: x :: xs else x :: insertByTakenAt l xs

/-- `order_by("taken_at")`: the logs sorted by timestamp (stable
insertion sort). -/
def orderByTakenAt (ls : List DoseLog) : List DoseLog :=
  ls.foldr insertByTakenAt []

/-- From `views.py` `DoseLogViewSet.filter_by_date`: parse the `start`
and then the `end` query parameter with `parse_date` (each call may
raise, and the exception escapes the view unhandled — an HTTP 500); if
either parse returned `None`, answer 400 with the error message;
otherwise answer 200 with the logs whose `taken_at` date lies in the
inclusive range, ordered by `taken_at`. -/
def filter_by_date (logs : List DoseLog) (startRaw endRaw : Option String) :
    Except PyExc (Nat × FilterBody) := do
  let start ← parse_date startRaw
  let stop ← parse_date endRaw
  match start, stop with
  | some s, some e =>
    pure (200, .results (orderByTakenAt
      (logs.filter (fun l => s ≤ l.takenAtDate ∧ l.takenAtDate ≤ e))))
  | _, _ =>
    pure (400, .err "Both start and end query parameters are required and must be valid dates.")

/-- Three dose logs around the start of October 2025, in scrambled
order. -/
def octLogs : List DoseLog :=
  [ { medication := 1, takenAtDate := dateCode 2025 10 4 },
    { medication := 1, takenAtDate := dateCode 2025 10 1 },
    { medication := 1, takenAtDate := dateCode 2025 10 2, was_taken := false } ]

/-- C8, evaluated at the inputs where code and documentation diverge:
with the `start` parameter absent the view crashes with an unhandled
TypeError (HTTP 500) instead of answering 400 as its docstring and the
spec state, and a well-formatted but invalid date such as 2025-02-30
crashes with an unhandled ValueError; the documented behaviours — 400
for an ill-formatted or empty parameter, 200 with exactly the logs in
the inclusive range for valid dates — are also evaluated and hold. -/
theorem filter_by_date_missing_param_crashes :
    filter_by_date [] none (some "2025-01-01") = .error .typeError ∧
    filter_by_date [] (some "2025-02-30") (some "2025-03-01") = .error .valueError ∧
    filter_by_date [] (some "bad") (some "invalid") =
      .ok (400, .err "Both start and end query parameters are required and must be valid dates.") ∧
    filter_by_date [] (some "") (some "") =
      .ok (400, .err "Both start and end query parameters are required and must be valid dates.") ∧
    filter_by_date octLogs (some "2025-10-01") (some "2025-10-02") =
      .ok (200, .results
        [ { medication := 1, takenAtDate := dateCode 2025 10 1 },
          { medication := 1, takenAtDate := dateCode 2025 10 2, was_taken := false } ]) := by
  refine ⟨by decide, by decide, by decide, by decide, by decide⟩
